import Mathlib

/-!
Shallow embedding of the selflayer terminal client (src/selflayer) and proofs
about the claims of its specification.  The embedding follows the Python
source: `client.py` (HTTP gateway and streaming reader), `config.py`
(configuration model and manager), `models.py` (application state and index
mappings) and `tui.py` (command dispatch and index-based commands).
-/

namespace SelfLayer

/-- Opening brace character, written via its code point. -/
def lbrace : Char := Char.ofNat 123

/-- Closing brace character, written via its code point. -/
def rbrace : Char := Char.ofNat 125

/-- JSON values as decoded by the Python json module: objects keep their
fields in document order, mirroring Python dict insertion order. Numbers are
modelled as integers (the repository only ever inspects string fields). -/
inductive Json where
  | null : Json
  | bool (b : Bool) : Json
  | num (n : Int) : Json
  | str (s : String) : Json
  | arr (elems : List Json) : Json
  | obj (fields : List (String × Json)) : Json
deriving Repr

/-- ASCII whitespace test used to model Python whitespace handling. -/
def wsChar (c : Char) : Bool :=
  c = ' ' || c = '\t' || c = '\n' || c = '\r'

/-- Model of the Python str.strip on the character list of a string. -/
def pyStripChars (cs : List Char) : List Char :=
  ((cs.dropWhile wsChar).reverse.dropWhile wsChar).reverse

/-- Model of the Python str.strip. -/
def pyStrip (s : String) : String := String.mk (pyStripChars s.data)

/-- Tests whether the second list begins with the first. -/
def beginsWith : List Char → List Char → Bool
  | [], _ => true
  | _ :: _, [] => false
  | p :: ps, c :: cs => p = c && beginsWith ps cs

/-- Model of the Python str.startswith. -/
def pyBeginsWith (s pat : String) : Bool := beginsWith pat.data s.data

/-- Model of the Python slice s[n:]. -/
def pyDrop (s : String) (n : Nat) : String := String.mk (s.data.drop n)

/-- Model of the Python slice s[:n]. -/
def pyTake (s : String) (n : Nat) : String := String.mk (s.data.take n)

/-- Model of the Python len on a string. -/
def pyLen (s : String) : Nat := s.data.length

/-- Whitespace skipping used by the JSON reader model. -/
def skipWs : List Char → List Char
  | [] => []
  | c :: cs => if wsChar c then skipWs cs else c :: cs

/-- Reads the characters of a JSON string literal after the opening quote,
handling the single-character escapes; returns the decoded characters and the
remaining input. A \x75 escape (unicode escape) is not modelled; none occurs
in the repository or its tests. -/
def parseStringChars : List Char → Option (List Char × List Char)
  | [] => none
  | c :: cs =>
    if c = '\"' then some ([], cs)
    else if c = '\\' then
      match cs with
      | [] => none
      | e :: cs2 =>
        let dec : Option Char :=
          if e = '\"' then some '\"'
          else if e = '\\' then some '\\'
          else if e = '/' then some '/'
          else if e = 'n' then some '\n'
          else if e = 't' then some '\t'
          else if e = 'r' then some '\r'
          else if e = 'b' then some (Char.ofNat 8)
          else if e = 'f' then some (Char.ofNat 12)
          else none
        match dec with
        | none => none
        | some d =>
          match parseStringChars cs2 with
          | none => none
          | some (s, r) => some (d :: s, r)
    else
      match parseStringChars cs with
      | none => none
      | some (s, r) => some (c :: s, r)

/-- Consumes a literal keyword (null, true, false). -/
def dropLit : List Char → List Char → Option (List Char)
  | [], cs => some cs
  | _ :: _, [] => none
  | p :: ps, c :: cs => if c = p then dropLit ps cs else none

/-- Splits a leading run of decimal digits from the input. -/
def takeDigits : List Char → List Char × List Char
  | [] => ([], [])
  | c :: cs =>
    if c.isDigit then
      let (ds, r) := takeDigits cs
      (c :: ds, r)
    else ([], c :: cs)

/-- Numeric value of a digit run. -/
def digitsToNat (ds : List Char) : Nat :=
  ds.foldl (fun a c => a * 10 + (c.toNat - 48)) 0

/-- Reads a JSON integer (optional minus sign and digits). Fractions and
exponents are not modelled; the repository never sends or inspects them. -/
def parseNumber : List Char → Option (Json × List Char)
  | '-' :: rest =>
    let (ds, r) := takeDigits rest
    if ds.isEmpty then none else some (Json.num (-(digitsToNat ds : Int)), r)
  | cs =>
    let (ds, r) := takeDigits cs
    if ds.isEmpty then none else some (Json.num (digitsToNat ds), r)

mutual

/-- Model of one JSON value read from the input, with fuel bounding the
nesting depth. Returns the value and the unconsumed input. -/
def parseValue : Nat → List Char → Option (Json × List Char)
  | 0, _ => none
  | Nat.succ fuel, cs =>
    match skipWs cs with
    | [] => none
    | c :: rest =>
      if c = 'n' then
        match dropLit ['u', 'l', 'l'] rest with
        | some r => some (Json.null, r)
        | none => none
      else if c = 't' then
        match dropLit ['r', 'u', 'e'] rest with
        | some r => some (Json.bool true, r)
        | none => none
      else if c = 'f' then
        match dropLit ['a', 'l', 's', 'e'] rest with
        | some r => some (Json.bool false, r)
        | none => none
      else if c = '\"' then
        match parseStringChars rest with
        | some (s, r) => some (Json.str (String.mk s), r)
        | none => none
      else if c = lbrace then
        match skipWs rest with
        | [] => none
        | d :: r2 =>
          if d = rbrace then some (Json.obj [], r2)
          else
            match parseMembers fuel (d :: r2) with
            | some (ms, r) => some (Json.obj ms, r)
            | none => none
      else if c = '[' then
        match skipWs rest with
        | [] => none
        | d :: r2 =>
          if d = ']' then some (Json.arr [], r2)
          else
            match parseElems fuel (d :: r2) with
            | some (es, r) => some (Json.arr es, r)
            | none => none
      else parseNumber (c :: rest)

/-- Reads the members of a JSON object after the opening brace, up to and
including the closing brace. -/
def parseMembers : Nat → List Char → Option (List (String × Json) × List Char)
  | 0, _ => none
  | Nat.succ fuel, cs =>
    match skipWs cs with
    | '\"' :: rest =>
      match parseStringChars rest with
      | none => none
      | some (key, r1) =>
        match skipWs r1 with
        | ':' :: r2 =>
          match parseValue fuel r2 with
          | none => none
          | some (v, r3) =>
            match skipWs r3 with
            | [] => none
            | c :: r4 =>
              if c = ',' then
                match parseMembers fuel r4 with
                | some (ms, r) => some ((String.mk key, v) :: ms, r)
                | none => none
              else if c = rbrace then some ([(String.mk key, v)], r4)
              else none
        | _ => none
    | _ => none

/-- Reads the elements of a JSON array after the opening bracket, up to and
including the closing bracket. -/
def parseElems : Nat → List Char → Option (List Json × List Char)
  | 0, _ => none
  | Nat.succ fuel, cs =>
    match parseValue fuel cs with
    | none => none
    | some (v, r1) =>
      match skipWs r1 with
      | ',' :: r2 =>
        match parseElems fuel r2 with
        | some (es, r) => some (v :: es, r)
        | none => none
      | ']' :: r2 => some ([v], r2)
      | _ => none

end

/-- Model of the Python json.loads: decodes one JSON value and rejects
trailing garbage; any failure yields none (a JSONDecodeError in Python). -/
def json_loads (s : String) : Option Json :=
  match parseValue (pyLen s + 1) s.data with
  | some (j, rest) => if (skipWs rest).isEmpty then some j else none
  | none => none

/-- Characters of the SSE line marker "data: ". -/
def sseMarker : List Char := ['d', 'a', 't', 'a', ':', ' ']

/-- Characters of the stream termination sentinel. -/
def doneToken : List Char := ['[', 'D', 'O', 'N', 'E', ']']

/-- Streaming line loop of SelfLayerAPIClient.stream (client.py lines
362-378): for each received line, blank lines are skipped; a line with the
SSE prefix has the prefix removed and terminates the whole loop when the
payload strips to the [DONE] sentinel, otherwise the payload is decoded and
yielded; a line without the prefix is decoded whole and yielded; any decode
failure logs a warning and continues with the next line. The returned list
is the sequence of yielded chunks. -/
def streamLines : List String → List Json
  | [] => []
  | line :: rest =>
    if (pyStripChars line.data).isEmpty then streamLines rest
    else if beginsWith sseMarker line.data then
      let json_str := pyDrop line 6
      if pyStripChars json_str.data = doneToken then []
      else
        match json_loads json_str with
        | some chunk => chunk :: streamLines rest
        | none => streamLines rest
    else
      match json_loads line with
      | some chunk => chunk :: streamLines rest
      | none => streamLines rest

/-- Model of the Python repr on a decoded JSON value, used by str formatting
of containers. -/
def pyRepr : Json → String
  | .null => "None"
  | .bool true => "True"
  | .bool false => "False"
  | .num n => toString n
  | .str s => "\x27" ++ s ++ "\x27"
  | .arr xs => "[" ++ String.intercalate ", " (xs.attach.map fun x => pyRepr x.1) ++ "]"
  | .obj fs =>
    "\x7b" ++
      String.intercalate ", "
        (fs.attach.map fun f => "\x27" ++ f.1.1 ++ "\x27: " ++ pyRepr f.1.2) ++
    "\x7d"
decreasing_by
  · simp only [Json.arr.sizeOf_spec]
    have h := List.sizeOf_lt_of_mem x.2
    omega
  · obtain ⟨⟨k, v⟩, hm⟩ := f
    simp only [Json.obj.sizeOf_spec]
    have h := List.sizeOf_lt_of_mem hm
    simp only [Prod.mk.sizeOf_spec] at h
    omega

/-- Model of the Python str() applied to a decoded JSON value, as performed
by f-string formatting of a non-string detail field. -/
def pyStr : Json → String
  | .str s => s
  | j => pyRepr j

/-- HTTP response as observed by the client: status code, the result of
response.json() (none when the body is not valid JSON), the raw body text,
and the body lines iterated by the streaming reader. -/
structure Response where
  status : Nat
  jsonBody : Option Json
  text : String
  lines : List String

/-- Outcome of one HTTP round trip from the point of view of the httpx
calls: a response, a raised TimeoutException, or another raised
RequestError with its message. -/
inductive NetOutcome where
  | success (r : Response) : NetOutcome
  | timeout : NetOutcome
  | transportError (e : String) : NetOutcome

/-- Model of httpx Response.is_success: a 2xx status code. -/
def is_success (status : Nat) : Bool := 200 ≤ status && status < 300

/-- Rich panel as built by SelfLayerAPIClient._handle_error (title, message
text, and border style). -/
structure Panel where
  message : String
  title : String
  border_style : String

/-- Error text extraction of SelfLayerAPIClient._handle_error (client.py
lines 112-116): the detail field of a JSON object body, the generic
HTTP-status text when the field is missing, and status plus raw body text
when the body is not a JSON object (the .get attribute access raises and is
caught) or fails to decode. -/
def error_message (r : Response) : String :=
  match r.jsonBody with
  | some (Json.obj fields) =>
    match fields.lookup "detail" with
    | some (Json.str s) => s
    | some j => pyStr j
    | none => "HTTP " ++ toString r.status
  | _ => "HTTP " ++ toString r.status ++ ": " ++ r.text

/-- Model of SelfLayerAPIClient._handle_error (client.py lines 102-143):
builds the status-specific panel around the extracted error message. -/
def handle_error (r : Response) : Panel :=
  let error_msg := error_message r
  let border : String := if 500 ≤ r.status then "red" else "yellow"
  if r.status = 401 then
    { message := "[red]" ++ error_msg ++
        "[/red]\n\nCheck your SELFLAYER_API_KEY environment variable."
      title := "[red]Authentication Error[/red]"
      border_style := border }
  else if r.status = 403 then
    { message := "[red]" ++ error_msg ++
        "[/red]\n\nYour API key may not have sufficient permissions."
      title := "[red]Permission Denied[/red]"
      border_style := border }
  else if r.status = 404 then
    { message := "[yellow]" ++ error_msg ++ "[/yellow]"
      title := "[yellow]Not Found[/yellow]"
      border_style := border }
  else if r.status = 422 then
    { message := "[red]" ++ error_msg ++ "[/red]"
      title := "[red]Validation Error[/red]"
      border_style := border }
  else if r.status = 429 then
    { message := "[yellow]" ++ error_msg ++ "[/yellow]\n\nPlease wait and try again."
      title := "[yellow]Rate Limited[/yellow]"
      border_style := border }
  else
    { message := "[red]" ++ error_msg ++ "[/red]"
      title := "[red]API Error[/red]"
      border_style := border }

/-- Result of one gateway call: the returned JSON value, the None returned
by delete on a 204 status, a raised APIError with its message, or a
propagated JSONDecodeError when response.json() fails on a success body. -/
inductive CallResult where
  | ok (body : Json) : CallResult
  | okNone : CallResult
  | apiError (msg : String) : CallResult
  | jsonDecodeFailure : CallResult

/-- Shared request handling of SelfLayerAPIClient.get, post, put and patch
(client.py lines 161-178 and the identical blocks of post, put, patch):
on a success status the parsed body is returned unchanged; on a non-success
status the error panel is printed and APIError with the status code is
raised; a timeout raises APIError with a timeout message and any other
transport failure raises APIError with the httpx error text. The second
component is the panel printed to the console, if any. -/
def request_call (endpoint : String) (outcome : NetOutcome) : CallResult × Option Panel :=
  match outcome with
  | .success r =>
    if is_success r.status then
      match r.jsonBody with
      | some j => (.ok j, none)
      | none => (.jsonDecodeFailure, none)
    else (.apiError ("API request failed: " ++ toString r.status), some (handle_error r))
  | .timeout => (.apiError ("Request timeout for " ++ endpoint), none)
  | .transportError e => (.apiError ("Request error for " ++ endpoint ++ ": " ++ e), none)

/-- Model of SelfLayerAPIClient.delete (client.py lines 297-329): same as
the shared handling except that a 204 status returns None without reading
the body. -/
def delete_call (endpoint : String) (outcome : NetOutcome) : CallResult × Option Panel :=
  match outcome with
  | .success r =>
    if is_success r.status then
      if r.status = 204 then (.okNone, none)
      else
        match r.jsonBody with
        | some j => (.ok j, none)
        | none => (.jsonDecodeFailure, none)
    else (.apiError ("API request failed: " ++ toString r.status), some (handle_error r))
  | .timeout => (.apiError ("Request timeout for " ++ endpoint), none)
  | .transportError e => (.apiError ("Request error for " ++ endpoint ++ ": " ++ e), none)

/-- Model of SelfLayerAPIClient.stream (client.py lines 331-383): on a
success status the body lines are consumed by the streaming line loop and
the yielded chunks returned; on a non-success status the error panel is
printed and APIError with the status code is raised; timeouts and transport
failures raise APIError with stream-specific messages. -/
def stream_call (endpoint : String) (outcome : NetOutcome) :
    Except String (List Json) × Option Panel :=
  match outcome with
  | .success r =>
    if is_success r.status then (.ok (streamLines r.lines), none)
    else (.error ("API stream failed: " ++ toString r.status), some (handle_error r))
  | .timeout => (.error ("Stream timeout for " ++ endpoint), none)
  | .transportError e => (.error ("Stream error for " ++ endpoint ++ ": " ++ e), none)

/-- Persistent configuration fields of SelfLayerConfig (config.py lines
26-48). The two timestamp fields are omitted: none of the verified
behavior reads them. -/
structure SelfLayerConfig where
  api_key : Option String
  base_url : String
  log_level : String

/-- Configuration with the default field values of the pydantic model. -/
def defaultConfig : SelfLayerConfig :=
  { api_key := none
    base_url := "https://api.selflayer.com/api/v1"
    log_level := "INFO" }

/-- Model of SelfLayerConfig.set_api_key (config.py lines 54-66): an empty
or blank key is rejected, the key is trimmed, a trimmed key that does not
begin with sl_live_ or sl_test_ is rejected, and otherwise the trimmed key
is stored. The error value carries the raised ValueError message; the state
is only changed in the success case, the assignment being the last
statement of the Python method. -/
def set_api_key (c : SelfLayerConfig) (api_key : String) : Except String SelfLayerConfig :=
  if api_key = "" ∨ pyStrip api_key = "" then .error "API key cannot be empty"
  else
    let key := pyStrip api_key
    if !(pyBeginsWith key "sl_live_" || pyBeginsWith key "sl_test_") then
      .error ("Invalid API key format. SelfLayer API keys must start with " ++
        "\x27sl_live_\x27 or \x27sl_test_\x27")
    else .ok { c with api_key := some key }

/-- Model of ConfigManager.update_api_key (config.py lines 193-209): applies
set_api_key to the current configuration and saves it; a raised ValueError
is caught and reported as False, leaving the configuration unchanged. Disk
writes are abstracted as succeeding, so save_config yields True. Returns
the reported flag and the resulting stored configuration. -/
def update_api_key (c : SelfLayerConfig) (api_key : String) : Bool × SelfLayerConfig :=
  match set_api_key c api_key with
  | .error _ => (false, c)
  | .ok c2 => (true, c2)

/-- Model of SelfLayerConfig.get_masked_api_key (config.py lines 72-80). The
first branch tests Python falsiness of the key, so a missing key and an
empty-string key are both rendered as Not set. -/
def get_masked_api_key (c : SelfLayerConfig) : String :=
  match c.api_key with
  | none => "Not set"
  | some k =>
    if k = "" then "Not set"
    else if pyLen k < 12 then "***"
    else pyTake k 8 ++ "..." ++ pyDrop k (pyLen k - 4)

/-- Model of ConfigManager.get_effective_api_key (config.py lines 256-271):
env is the value of the SELFLAYER_API_KEY environment variable (none when
unset); a truthy value is stripped and returned, otherwise the stored key is
returned. -/
def get_effective_api_key (env : Option String) (stored : Option String) : Option String :=
  match env with
  | some e => if e ≠ "" then some (pyStrip e) else stored
  | none => stored

/-- Model of ConfigManager.get_effective_base_url (config.py lines 273-285):
env is the value of the SELFLAYER_BASE_URL environment variable (none when
unset); a truthy value is stripped and returned, otherwise the stored base
URL is returned. -/
def get_effective_base_url (env : Option String) (stored_base_url : String) : String :=
  match env with
  | some e => if e ≠ "" then pyStrip e else stored_base_url
  | none => stored_base_url

/-- Document record; only the identifier field is embedded, the one field
the index bookkeeping of AppState reads (models.py line 86). -/
structure Document where
  id : String

/-- Note record (models.py line 164), identifier field only. -/
structure Note where
  id : String

/-- Notification record (models.py line 478), identifier field only. -/
structure Notification where
  id : String

/-- Integration record (models.py line 224), identifier field only. -/
structure Integration where
  id : String

/-- Automation record (models.py line 322), identifier field only. -/
structure Automation where
  id : String

/-- Slice of AppState (models.py lines 584-635): the five cached record
lists and their integer index mappings. The Python dicts with int keys are
modelled as association lists in insertion order. -/
structure AppState where
  documents : List Document
  notes : List Note
  notifications : List Notification
  integrations : List Integration
  automations : List Automation
  document_index : List (Int × String)
  note_index : List (Int × String)
  notification_index : List (Int × String)
  integration_index : List (Int × String)
  automation_index : List (Int × String)

/-- Fresh state with the default (empty) field values. -/
def initialState : AppState := ⟨[], [], [], [], [], [], [], [], [], []⟩

/-- Index dictionary comprehension of the update methods: entry n + i + 1
maps to the i-th identifier, n being the enumeration offset (0 at the top
call). -/
def buildIndexFrom (n : Int) : List String → List (Int × String)
  | [] => []
  | x :: xs => (n + 1, x) :: buildIndexFrom (n + 1) xs

/-- Model of AppState.update_documents (models.py lines 642-645). -/
def update_documents (s : AppState) (docs : List Document) : AppState :=
  { s with
    documents := docs
    document_index := buildIndexFrom 0 (docs.map Document.id) }

/-- Model of AppState.update_notes (models.py lines 647-650). -/
def update_notes (s : AppState) (ns : List Note) : AppState :=
  { s with
    notes := ns
    note_index := buildIndexFrom 0 (ns.map Note.id) }

/-- Model of AppState.update_notifications (models.py lines 652-657). -/
def update_notifications (s : AppState) (ns : List Notification) : AppState :=
  { s with
    notifications := ns
    notification_index := buildIndexFrom 0 (ns.map Notification.id) }

/-- Model of AppState.update_integrations (models.py lines 659-664). -/
def update_integrations (s : AppState) (is2 : List Integration) : AppState :=
  { s with
    integrations := is2
    integration_index := buildIndexFrom 0 (is2.map Integration.id) }

/-- Model of AppState.update_automations (models.py lines 666-671). -/
def update_automations (s : AppState) (as2 : List Automation) : AppState :=
  { s with
    automations := as2
    automation_index := buildIndexFrom 0 (as2.map Automation.id) }

/-- Model of AppState.get_document_by_index (models.py lines 673-678): the
index dictionary lookup, a Python truthiness test on the identifier, and a
scan of the cached documents for the first one carrying that identifier. -/
def get_document_by_index (s : AppState) (index : Int) : Option Document :=
  match s.document_index.lookup index with
  | some doc_id =>
    if doc_id ≠ "" then s.documents.find? (fun d => d.id == doc_id) else none
  | none => none

/-- Outcome of the index-checking phase of SelfLayerCLI._delete_document
(tui.py lines 660-681): with no resolved document the handler prints the
not-found panel and returns before the confirmation prompt and before any
network call; otherwise it proceeds to confirm and delete the resolved
document. -/
inductive DeleteOutcome where
  | notFound (msg : String) : DeleteOutcome
  | proceeds (doc : Document) : DeleteOutcome

/-- Index-checking phase of SelfLayerCLI._delete_document, applied after
the integer parse of the argument succeeds. -/
def delete_document_by_index (s : AppState) (index : Int) : DeleteOutcome :=
  match get_document_by_index s index with
  | none =>
    .notFound ("Document #" ++ toString index ++ " not found. Use /d to list documents.")
  | some d => .proceeds d

/-- Command tokens exempted from the credential check in
SelfLayerCLI._execute_command (tui.py lines 265-281). -/
def noClientCommands : List String :=
  ["/help", "/h", "help", "/key", "/k", "key", "/clear", "/c", "clear",
   "/quit", "/q", "quit", "exit"]

/-- Result of dispatching one command token: the credential-required error,
a named command handler, or the unknown-command message. -/
inductive DispatchResult where
  | credentialError : DispatchResult
  | handler (name : String) : DispatchResult
  | unknown : DispatchResult

/-- Routing table of SelfLayerCLI._execute_command (tui.py lines 292-323). -/
def route (command : String) : DispatchResult :=
  if command ∈ ["/help", "help", "/h"] then .handler "help"
  else if command ∈ ["/key", "key", "/k"] then .handler "key"
  else if command ∈ ["/ask", "ask", "/a"] then .handler "ask"
  else if command ∈ ["/search", "search", "/s"] then .handler "search"
  else if command ∈ ["/documents", "documents", "/d"] then .handler "documents"
  else if command ∈ ["/notes", "notes", "/n"] then .handler "notes"
  else if command ∈ ["/integrations", "integrations", "/i"] then .handler "integrations"
  else if command ∈ ["/automations", "automations", "/auto"] then .handler "automations"
  else if command ∈ ["/notifications", "notifications", "/notifs"] then .handler "notifications"
  else if command ∈ ["/rms", "rms", "/r"] then .handler "rms"
  else if command ∈ ["/clear", "clear", "/c"] then .handler "clear"
  else if command ∈ ["/quit", "/exit", "quit", "exit", "/q"] then .handler "quit"
  else .unknown

/-- Model of SelfLayerCLI._execute_command (tui.py lines 262-323): hasClient
tells whether an API client is configured; a command token outside the
exempt list with no client produces the credential-required error, any
other token is routed. -/
def execute_command (hasClient : Bool) (command : String) : DispatchResult :=
  if command ∉ noClientCommands ∧ hasClient = false then .credentialError
  else route command

/-! Theorems. -/

theorem strData_append (s t : String) : (s ++ t).data = s.data ++ t.data := by
  cases s
  cases t
  rfl

/-- A string occurs inside its concatenation with surrounding text. -/
theorem data_between (a m b : String) : m.data <:+: (a ++ m ++ b).data :=
  ⟨a.data, b.data, by simp [strData_append]⟩

/-- The panel built by _handle_error always carries the extracted server
message inside its message text. -/
theorem error_message_in_panel (r : Response) :
    (error_message r).data <:+: (handle_error r).message.data := by
  unfold handle_error
  dsimp only
  split_ifs <;> exact data_between _ _ _

/-- CLAIM C1 (counterexample): for a 404 response whose JSON body carries the
server message in its detail field, the raised APIError message names the
status code but does not contain the server-provided message, which only
reaches the printed panel. -/
theorem c1_error_lacks_server_message :
    error_message ⟨404, some (Json.obj [("detail", Json.str "Document not available")]), "", []⟩ =
      "Document not available" ∧
    request_call "documents/abc"
        (.success ⟨404, some (Json.obj [("detail", Json.str "Document not available")]), "", []⟩) =
      (.apiError "API request failed: 404",
        some ⟨"[yellow]Document not available[/yellow]", "[yellow]Not Found[/yellow]", "yellow"⟩) ∧
    ¬ ("Document not available".data <:+: "API request failed: 404".data) :=
  ⟨rfl, rfl, by decide⟩

/-- CLAIM C1 (amended): every gateway call (get, post, put, patch, delete,
stream) that receives a non-success HTTP response raises APIError carrying
the original status code, while the server-provided message is carried by
the error panel printed at that moment; timeouts and transport failures
raise the same error kind with a distinguishing message. -/
theorem c1_failure_handling (endpoint e : String) (r : Response)
    (hs : is_success r.status = false) :
    request_call endpoint (.success r) =
      (.apiError ("API request failed: " ++ toString r.status), some (handle_error r)) ∧
    delete_call endpoint (.success r) =
      (.apiError ("API request failed: " ++ toString r.status), some (handle_error r)) ∧
    stream_call endpoint (.success r) =
      (.error ("API stream failed: " ++ toString r.status), some (handle_error r)) ∧
    (error_message r).data <:+: (handle_error r).message.data ∧
    request_call endpoint .timeout = (.apiError ("Request timeout for " ++ endpoint), none) ∧
    request_call endpoint (.transportError e) =
      (.apiError ("Request error for " ++ endpoint ++ ": " ++ e), none) ∧
    delete_call endpoint .timeout = (.apiError ("Request timeout for " ++ endpoint), none) ∧
    delete_call endpoint (.transportError e) =
      (.apiError ("Request error for " ++ endpoint ++ ": " ++ e), none) ∧
    stream_call endpoint .timeout = (.error ("Stream timeout for " ++ endpoint), none) ∧
    stream_call endpoint (.transportError e) =
      (.error ("Stream error for " ++ endpoint ++ ": " ++ e), none) := by
  refine ⟨?_, ?_, ?_, error_message_in_panel r, rfl, rfl, rfl, rfl, rfl, rfl⟩ <;>
    simp only [request_call, delete_call, stream_call, hs, Bool.false_eq_true, if_false]

/-- CLAIM C1 (witness): instantiation at a 500 response. -/
theorem c1_failure_handling_witness :
    request_call "notes/" (.success ⟨500, none, "oops", []⟩) =
      (.apiError "API request failed: 500", some (handle_error ⟨500, none, "oops", []⟩)) := by
  rw [(c1_failure_handling "notes/" "boom" ⟨500, none, "oops", []⟩ (by decide)).1]
  exact rfl

/-- CLAIM C2: the streaming reader, fed the two SSE data lines and the
sentinel line, yields exactly the two parsed objects in order and stops. -/
theorem c2_stream_yields_two_chunks :
    streamLines
        ["data: \x7b\"content\":\"a\"\x7d", "data: \x7b\"content\":\"b\"\x7d", "data: [DONE]"] =
      [Json.obj [("content", Json.str "a")], Json.obj [("content", Json.str "b")]] := by
  rfl

/-- CLAIM C8 (counterexample): the sentinel line is itself non-blank and its
payload after the prefix is not valid JSON, yet it is not skipped: it
terminates the stream, so a following well-formed line is never yielded. -/
theorem c8_done_line_terminates :
    (pyStripChars "data: [DONE]".data).isEmpty = false ∧
    beginsWith sseMarker "data: [DONE]".data = true ∧
    json_loads (pyDrop "data: [DONE]" 6) = none ∧
    streamLines ["data: [DONE]", "data: \x7b\"content\":\"c\"\x7d"] = [] ∧
    streamLines ["data: \x7b\"content\":\"c\"\x7d"] = [Json.obj [("content", Json.str "c")]] :=
  ⟨rfl, rfl, rfl, rfl, rfl⟩

/-- CLAIM C8 (amended): every non-blank line that is not valid JSON after
stripping the optional SSE prefix, other than a prefixed line whose payload
strips to the [DONE] sentinel, is skipped and the stream continues with the
remaining lines; such a line neither raises nor terminates the stream. -/
theorem c8_malformed_line_skipped (line : String) (rest : List String)
    (hnb : (pyStripChars line.data).isEmpty = false)
    (hnd : ¬(beginsWith sseMarker line.data = true ∧
        pyStripChars (pyDrop line 6).data = doneToken))
    (hbad : json_loads (if beginsWith sseMarker line.data then pyDrop line 6 else line) = none) :
    streamLines (line :: rest) = streamLines rest := by
  have h1 : ((pyStripChars line.data).isEmpty = true) = False := by simp [hnb]
  by_cases hm : beginsWith sseMarker line.data = true
  · have hdone : ¬ (pyStripChars (pyDrop line 6).data = doneToken) := fun h => hnd ⟨hm, h⟩
    rw [if_pos hm] at hbad
    simp only [streamLines, h1, if_false, hm, if_true]
    rw [if_neg hdone, hbad]
  · rw [if_neg hm] at hbad
    have hm2 : (beginsWith sseMarker line.data = true) = False := by simp [hm]
    simp only [streamLines, h1, if_false, hm2, hbad]

/-- CLAIM C8 (witness): a line that is not JSON at all is skipped and the
following well-formed line is still yielded. -/
theorem c8_malformed_line_skipped_witness :
    streamLines ["not json", "data: \x7b\"content\":\"c\"\x7d"] =
      streamLines ["data: \x7b\"content\":\"c\"\x7d"] :=
  c8_malformed_line_skipped "not json" ["data: \x7b\"content\":\"c\"\x7d"]
    rfl (by decide) rfl

/-- The rebuilt index dictionary has one entry per identifier. -/
theorem buildIndexFrom_length (ids : List String) (n : Int) :
    (buildIndexFrom n ids).length = ids.length := by
  induction ids generalizing n with
  | nil => rfl
  | cons x xs ih => simp [buildIndexFrom, ih]

/-- Entry i of the rebuilt index dictionary pairs key n + i + 1 with the
i-th identifier. -/
theorem buildIndexFrom_get? (ids : List String) (n : Int) (i : Nat) :
    (buildIndexFrom n ids).get? i = (ids.get? i).map (fun x => (n + (i : Int) + 1, x)) := by
  induction ids generalizing n i with
  | nil => simp [buildIndexFrom]
  | cons x xs ih =>
    cases i with
    | zero => simp [buildIndexFrom]
    | succ j =>
      simp only [buildIndexFrom, List.get?_cons_succ, ih (n + 1) j]
      cases h : xs.get? j
      · simp
      · simp only [Option.map_some']
        have : (n + 1) + (j : Int) + 1 = n + ((j + 1 : Nat) : Int) + 1 := by push_cast; ring
        rw [this]

/-- Looking up key n + i + 1 in the rebuilt index dictionary returns the
i-th identifier. -/
theorem buildIndexFrom_lookup (ids : List String) (n : Int) (i : Nat) (h : i < ids.length) :
    (buildIndexFrom n ids).lookup (n + (i : Int) + 1) = ids.get? i := by
  induction ids generalizing n i with
  | nil => simp at h
  | cons x xs ih =>
    cases i with
    | zero => simp [buildIndexFrom, List.lookup]
    | succ j =>
      have hj : j < xs.length := by simpa using h
      have hne : (n + ((j + 1 : Nat) : Int) + 1 == n + 1) = false := by
        simp only [beq_eq_false_iff_ne, ne_eq]
        push_cast
        omega
      simp only [buildIndexFrom, List.lookup, hne, List.get?_cons_succ]
      have hcast : n + ((j + 1 : Nat) : Int) + 1 = (n + 1) + (j : Int) + 1 := by
        push_cast; ring
      rw [hcast, ih (n + 1) j hj]

/-- Looking up a key at or below the offset, or above the last entry, finds
nothing in the rebuilt index dictionary. -/
theorem buildIndexFrom_lookup_none (ids : List String) (n k : Int)
    (h : k ≤ n ∨ n + (ids.length : Int) < k) :
    (buildIndexFrom n ids).lookup k = none := by
  induction ids generalizing n with
  | nil => rfl
  | cons x xs ih =>
    have hne : (k == n + 1) = false := by
      simp only [List.length_cons] at h
      push_cast at h
      simp only [beq_eq_false_iff_ne, ne_eq]
      omega
    simp only [buildIndexFrom, List.lookup, hne]
    apply ih
    simp only [List.length_cons] at h
    push_cast at h ⊢
    omega

/-- Index rebuilt at offset 0: one entry per identifier and entry i pairs
key i + 1 with the i-th identifier. -/
theorem rebuilt_index_spec (ids : List String) :
    (buildIndexFrom 0 ids).length = ids.length ∧
    ∀ i : Nat, (buildIndexFrom 0 ids).get? i = (ids.get? i).map (fun x => ((i : Int) + 1, x)) := by
  refine ⟨buildIndexFrom_length ids 0, fun i => ?_⟩
  rw [buildIndexFrom_get?]
  simp

/-- Length of an index rebuilt from a projected identifier list. -/
theorem index_length {α : Type} (f : α → String) (l : List α) :
    (buildIndexFrom 0 (l.map f)).length = l.length := by
  rw [buildIndexFrom_length, List.length_map]

/-- Entry i of an index rebuilt from a projected identifier list. -/
theorem index_entry {α : Type} (f : α → String) (l : List α) (i : Nat) :
    (buildIndexFrom 0 (l.map f)).get? i = (l.get? i).map (fun x => ((i : Int) + 1, f x)) := by
  rw [(rebuilt_index_spec _).2 i, List.get?_map, Option.map_map]
  rfl

/-- CLAIM C3: refreshing any of the five cached lists (documents, notes,
notifications, integrations, automations) rebuilds the matching index to
exactly N entries, the i-th entry pairing key i + 1 with the identifier of
the i-th item in response order, independently of the previous state of the
mapping. -/
theorem c3_index_rebuilt (s t : AppState) (docs : List Document) (ns : List Note)
    (nfs : List Notification) (igs : List Integration) (ams : List Automation) :
    ((update_documents s docs).document_index.length = docs.length ∧
      (∀ i : Nat, (update_documents s docs).document_index.get? i =
        (docs.get? i).map (fun d => ((i : Int) + 1, d.id))) ∧
      (update_documents s docs).document_index = (update_documents t docs).document_index) ∧
    ((update_notes s ns).note_index.length = ns.length ∧
      (∀ i : Nat, (update_notes s ns).note_index.get? i =
        (ns.get? i).map (fun x => ((i : Int) + 1, x.id))) ∧
      (update_notes s ns).note_index = (update_notes t ns).note_index) ∧
    ((update_notifications s nfs).notification_index.length = nfs.length ∧
      (∀ i : Nat, (update_notifications s nfs).notification_index.get? i =
        (nfs.get? i).map (fun x => ((i : Int) + 1, x.id))) ∧
      (update_notifications s nfs).notification_index =
        (update_notifications t nfs).notification_index) ∧
    ((update_integrations s igs).integration_index.length = igs.length ∧
      (∀ i : Nat, (update_integrations s igs).integration_index.get? i =
        (igs.get? i).map (fun x => ((i : Int) + 1, x.id))) ∧
      (update_integrations s igs).integration_index =
        (update_integrations t igs).integration_index) ∧
    ((update_automations s ams).automation_index.length = ams.length ∧
      (∀ i : Nat, (update_automations s ams).automation_index.get? i =
        (ams.get? i).map (fun x => ((i : Int) + 1, x.id))) ∧
      (update_automations s ams).automation_index =
        (update_automations t ams).automation_index) := by
  exact ⟨⟨index_length Document.id docs, fun i => index_entry Document.id docs i, rfl⟩,
    ⟨index_length Note.id ns, fun i => index_entry Note.id ns i, rfl⟩,
    ⟨index_length Notification.id nfs, fun i => index_entry Notification.id nfs i, rfl⟩,
    ⟨index_length Integration.id igs, fun i => index_entry Integration.id igs i, rfl⟩,
    ⟨index_length Automation.id ams, fun i => index_entry Automation.id ams i, rfl⟩⟩

/-- CLAIM C4 (counterexample): an index issued at a refresh whose recorded
identifier is the empty string does not resolve: the lookup tests Python
truthiness of the identifier, so index 1 is reported not found even though
the mapping holds an entry for it. -/
theorem c4_empty_id_not_resolved :
    (update_documents initialState [⟨""⟩]).document_index = [(1, "")] ∧
    get_document_by_index (update_documents initialState [⟨""⟩]) 1 = none ∧
    delete_document_by_index (update_documents initialState [⟨""⟩]) 1 =
      .notFound "Document #1 not found. Use /d to list documents." :=
  ⟨rfl, rfl, rfl⟩

/-- CLAIM C4 (amended): after a refresh, an issued index whose recorded
identifier is non-empty resolves to a cached document carrying exactly the
identifier captured at that refresh, and the delete command proceeds with
that document; an index above the list size or below 1 yields no item and
the delete command stops with the not-found message before any network
call. An index whose recorded identifier is the empty string is also
treated as not found. -/
theorem c4_index_resolution (s : AppState) (docs : List Document) (i : Nat) (k : Int)
    (hi : i < docs.length) (hid : (docs.get ⟨i, hi⟩).id ≠ "")
    (hk : k < 1 ∨ (docs.length : Int) < k) :
    (∃ d, get_document_by_index (update_documents s docs) ((i : Int) + 1) = some d ∧
      d.id = (docs.get ⟨i, hi⟩).id ∧
      delete_document_by_index (update_documents s docs) ((i : Int) + 1) = .proceeds d) ∧
    get_document_by_index (update_documents s docs) k = none ∧
    delete_document_by_index (update_documents s docs) k =
      .notFound ("Document #" ++ toString k ++ " not found. Use /d to list documents.") := by
  have hlook : (update_documents s docs).document_index.lookup ((i : Int) + 1) =
      some ((docs.get ⟨i, hi⟩).id) := by
    show (buildIndexFrom 0 (docs.map Document.id)).lookup ((i : Int) + 1) = _
    have h0 : (0 : Int) + (i : Int) + 1 = (i : Int) + 1 := by ring
    rw [← h0, buildIndexFrom_lookup _ _ _ (by simpa using hi), List.get?_map,
      List.get?_eq_get hi]
    rfl
  have hfind : ∃ d, docs.find? (fun d => d.id == (docs.get ⟨i, hi⟩).id) = some d := by
    have hsome : (docs.find? (fun d => d.id == (docs.get ⟨i, hi⟩).id)).isSome := by
      rw [List.find?_isSome]
      exact ⟨docs.get ⟨i, hi⟩, List.get_mem docs i hi, by simp⟩
    exact Option.isSome_iff_exists.mp hsome
  obtain ⟨d, hd⟩ := hfind
  have hdid : d.id = (docs.get ⟨i, hi⟩).id := by
    have := List.find?_some hd
    simpa using this
  have hget : get_document_by_index (update_documents s docs) ((i : Int) + 1) = some d := by
    unfold get_document_by_index
    rw [hlook]
    dsimp only
    rw [if_pos hid]
    exact hd
  have hnone : get_document_by_index (update_documents s docs) k = none := by
    unfold get_document_by_index
    have : (update_documents s docs).document_index.lookup k = none := by
      show (buildIndexFrom 0 (docs.map Document.id)).lookup k = none
      apply buildIndexFrom_lookup_none
      simp only [List.length_map]
      omega
    rw [this]
  refine ⟨⟨d, hget, hdid, ?_⟩, hnone, ?_⟩
  · unfold delete_document_by_index
    rw [hget]
  · unfold delete_document_by_index
    rw [hnone]

/-- CLAIM C4 (witness): with two fresh documents cached, index 2 resolves to
the second document and index 3 is reported not found. -/
theorem c4_index_resolution_witness :
    (∃ d, get_document_by_index (update_documents initialState [⟨"doc-1"⟩, ⟨"doc-2"⟩])
        ((1 : Nat) + 1) = some d ∧
      d.id = (([⟨"doc-1"⟩, ⟨"doc-2"⟩] : List Document).get ⟨1, by decide⟩).id ∧
      delete_document_by_index (update_documents initialState [⟨"doc-1"⟩, ⟨"doc-2"⟩])
        ((1 : Nat) + 1) = .proceeds d) ∧
    get_document_by_index (update_documents initialState [⟨"doc-1"⟩, ⟨"doc-2"⟩]) 3 = none ∧
    delete_document_by_index (update_documents initialState [⟨"doc-1"⟩, ⟨"doc-2"⟩]) 3 =
      .notFound ("Document #" ++ toString (3 : Int) ++ " not found. Use /d to list documents.") :=
  c4_index_resolution initialState [⟨"doc-1"⟩, ⟨"doc-2"⟩] 1 3 (by decide) (by decide)
    (by right; decide)

/-- CLAIM C5: a candidate API key that, after trimming, does not begin with
sl_live_ or sl_test_ (the empty and blank strings included) is rejected
before anything is persisted: set_api_key raises a ValueError, and
update_api_key reports False with the stored configuration, previous key
included, unchanged. -/
theorem c5_invalid_key_rejected (c : SelfLayerConfig) (api_key : String)
    (h : (pyBeginsWith (pyStrip api_key) "sl_live_" ||
      pyBeginsWith (pyStrip api_key) "sl_test_") = false) :
    (∃ msg, set_api_key c api_key = .error msg) ∧ update_api_key c api_key = (false, c) := by
  have hset : ∃ msg, set_api_key c api_key = .error msg := by
    unfold set_api_key
    split
    · exact ⟨_, rfl⟩
    · rw [if_pos (by simp [h])]
      exact ⟨_, rfl⟩
  obtain ⟨msg, hmsg⟩ := hset
  refine ⟨⟨msg, hmsg⟩, ?_⟩
  unfold update_api_key
  rw [hmsg]

/-- CLAIM C5 (witness): a key with the wrong marker is rejected and the
stored configuration keeps its previous key. -/
theorem c5_invalid_key_rejected_witness :
    (∃ msg, set_api_key ⟨some "sl_live_old", "https://api.selflayer.com/api/v1", "INFO"⟩
      "ak_bad_key" = .error msg) ∧
    update_api_key ⟨some "sl_live_old", "https://api.selflayer.com/api/v1", "INFO"⟩
      "ak_bad_key" =
      (false, ⟨some "sl_live_old", "https://api.selflayer.com/api/v1", "INFO"⟩) :=
  c5_invalid_key_rejected ⟨some "sl_live_old", "https://api.selflayer.com/api/v1", "INFO"⟩
    "ak_bad_key" (by decide)

/-- CLAIM C7: a non-empty environment value is returned stripped, for both
the API key and the base URL, regardless of the stored configuration; with
the variable unset or empty the stored value is returned. -/
theorem c7_env_overrides_config (e : String) (stored : Option String)
    (base : String) (he : e ≠ "") :
    get_effective_api_key (some e) stored = some (pyStrip e) ∧
    get_effective_api_key none stored = stored ∧
    get_effective_api_key (some "") stored = stored ∧
    get_effective_base_url (some e) base = pyStrip e ∧
    get_effective_base_url none base = base ∧
    get_effective_base_url (some "") base = base := by
  refine ⟨?_, rfl, ?_, ?_, rfl, ?_⟩
  · unfold get_effective_api_key
    dsimp only
    rw [if_pos he]
  · unfold get_effective_api_key
    dsimp only
    rw [if_neg (fun hc => hc rfl)]
  · unfold get_effective_base_url
    dsimp only
    rw [if_pos he]
  · unfold get_effective_base_url
    dsimp only
    rw [if_neg (fun hc => hc rfl)]

/-- CLAIM C7 (witness): a padded environment key wins over the stored key
and is stripped. -/
theorem c7_env_overrides_config_witness :
    get_effective_api_key (some " sl_live_env ") (some "sl_live_stored") =
      some "sl_live_env" :=
  ((c7_env_overrides_config " sl_live_env " (some "sl_live_stored") "b"
    (by decide)).1).trans rfl

/-- CLAIM C9 (counterexample): delete on a 204 status returns None without
reading the body, so a 204 response carrying a JSON body does not round-trip
that body. -/
theorem c9_delete_204_drops_body :
    delete_call "documents/1"
        (.success ⟨204, some (Json.obj [("ok", Json.bool true)]), "", []⟩) =
      (.okNone, none) ∧
    CallResult.okNone ≠ CallResult.ok (Json.obj [("ok", Json.bool true)]) :=
  ⟨rfl, fun h => CallResult.noConfusion h⟩

/-- CLAIM C9 (amended): a gateway call receiving a success (2xx) response
whose body parses to a JSON value returns exactly that value, unchanged, for
get, post, put and patch on every success status and for delete on every
success status other than 204; delete on 204 returns None without reading
the body. -/
theorem c9_success_returns_body (endpoint : String) (r : Response) (j : Json)
    (hs : is_success r.status = true) (hb : r.jsonBody = some j) :
    request_call endpoint (.success r) = (.ok j, none) ∧
    (r.status ≠ 204 → delete_call endpoint (.success r) = (.ok j, none)) ∧
    (r.status = 204 → delete_call endpoint (.success r) = (.okNone, none)) := by
  refine ⟨?_, fun h204 => ?_, fun h204 => ?_⟩
  · unfold request_call
    dsimp only
    rw [if_pos hs, hb]
  · unfold delete_call
    dsimp only
    rw [if_pos hs, if_neg h204, hb]
  · unfold delete_call
    dsimp only
    rw [if_pos hs, if_pos h204]

/-- CLAIM C9 (witness): a 200 response with a known JSON body round-trips
through the shared get/post/put/patch handling. -/
theorem c9_success_returns_body_witness :
    request_call "profile"
        (.success ⟨200, some (Json.obj [("name", Json.str "Ada")]), "", []⟩) =
      (.ok (Json.obj [("name", Json.str "Ada")]), none) :=
  (c9_success_returns_body "profile" ⟨200, some (Json.obj [("name", Json.str "Ada")]), "", []⟩
    (Json.obj [("name", Json.str "Ada")]) (by decide) rfl).1

/-- CLAIM C10 (counterexample): an empty-string key is a stored key with
fewer than 12 characters, yet the masked display is Not set, not the three
asterisks. -/
theorem c10_empty_key_shows_not_set :
    get_masked_api_key ⟨some "", "https://api.selflayer.com/api/v1", "INFO"⟩ = "Not set" ∧
    pyLen "" < 12 ∧
    ("Not set" : String) ≠ "***" :=
  ⟨rfl, by decide, by decide⟩

/-- CLAIM C10 (amended): the masked key display is Not set when no key is
stored or the stored key is the empty string, three asterisks when the key
is non-empty with fewer than 12 characters, and otherwise the first 8
characters, an ellipsis, and the last 4 characters; for a key of exactly 12
characters the shown fragments together comprise every character of the
key. -/
theorem c10_masked_key_format (c : SelfLayerConfig) (k : String) :
    (c.api_key = none → get_masked_api_key c = "Not set") ∧
    (c.api_key = some "" → get_masked_api_key c = "Not set") ∧
    (c.api_key = some k → k ≠ "" → pyLen k < 12 → get_masked_api_key c = "***") ∧
    (c.api_key = some k → 12 ≤ pyLen k →
      get_masked_api_key c = pyTake k 8 ++ "..." ++ pyDrop k (pyLen k - 4)) ∧
    (c.api_key = some k → pyLen k = 12 →
      get_masked_api_key c = pyTake k 8 ++ "..." ++ pyDrop k 8 ∧
      pyTake k 8 ++ pyDrop k 8 = k) := by
  refine ⟨fun h => ?_, fun h => ?_, fun h hk hl => ?_, fun h hl => ?_, fun h hl => ?_⟩
  · unfold get_masked_api_key
    rw [h]
  · unfold get_masked_api_key
    rw [h]
    rfl
  · unfold get_masked_api_key
    rw [h]
    dsimp only
    rw [if_neg hk, if_pos hl]
  · have hk : k ≠ "" := by
      intro hE
      rw [hE] at hl
      exact absurd hl (by decide)
    unfold get_masked_api_key
    rw [h]
    dsimp only
    rw [if_neg hk, if_neg (by omega)]
  · have h8 : pyLen k - 4 = 8 := by omega
    have hk : k ≠ "" := by
      intro hE
      rw [hE] at hl
      exact absurd hl (by decide)
    constructor
    · unfold get_masked_api_key
      rw [h]
      dsimp only
      rw [if_neg hk, if_neg (by omega), h8]
    · show String.mk (k.data.take 8 ++ k.data.drop 8) = k
      rw [List.take_append_drop]

/-- CLAIM C10 (witness): a 12-character key shows its first 8 and last 4
characters, which together are the whole key. -/
theorem c10_masked_key_format_witness :
    get_masked_api_key ⟨some "sl_live_ab12", "https://api.selflayer.com/api/v1", "INFO"⟩ =
      "sl_live_...ab12" ∧
    pyTake "sl_live_ab12" 8 ++ pyDrop "sl_live_ab12" 8 = "sl_live_ab12" := by
  have h := (c10_masked_key_format
    ⟨some "sl_live_ab12", "https://api.selflayer.com/api/v1", "INFO"⟩ "sl_live_ab12").2.2.2.2
    rfl (by decide)
  exact ⟨h.1.trans rfl, h.2⟩

/-- CLAIM C6 (counterexample): the token /exit is routed as a quit alias,
yet it is missing from the credential-exempt list, so without a configured
credential it produces the credential-required error instead of quitting. -/
theorem c6_exit_blocked_without_credential :
    execute_command false "/exit" = DispatchResult.credentialError ∧
    route "/exit" = DispatchResult.handler "quit" :=
  ⟨rfl, rfl⟩

/-- CLAIM C6 (amended): without a configured credential, exactly the
thirteen tokens of the exempt list (/help, /h, help, /key, /k, key, /clear,
/c, clear, /quit, /q, quit, exit, the alias /exit excluded) are dispatched,
each to one of the help, key, clear and quit handlers; every other token,
/exit included, produces the credential-required error. -/
theorem c6_credential_gate (command : String) :
    (execute_command false command ≠ DispatchResult.credentialError ↔
      command ∈ noClientCommands) ∧
    (command ∈ noClientCommands →
      execute_command false command = route command ∧
      ∃ h, route command = DispatchResult.handler h ∧ h ∈ ["help", "key", "clear", "quit"]) ∧
    (command ∉ noClientCommands →
      execute_command false command = DispatchResult.credentialError) := by
  by_cases hm : command ∈ noClientCommands
  · have hexec : execute_command false command = route command := by
      unfold execute_command
      rw [if_neg (fun hc => hc.1 hm)]
    have hhandler : ∃ h, route command = DispatchResult.handler h ∧
        h ∈ ["help", "key", "clear", "quit"] := by
      fin_cases hm <;> exact ⟨_, rfl, by decide⟩
    obtain ⟨nm, hr, hnm⟩ := hhandler
    refine ⟨?_, fun _ => ⟨hexec, ⟨nm, hr, hnm⟩⟩, fun hnot => absurd hm hnot⟩
    rw [hexec, hr]
    exact ⟨fun _ => hm, fun _ h => DispatchResult.noConfusion h⟩
  · have hexec : execute_command false command = DispatchResult.credentialError := by
      unfold execute_command
      rw [if_pos ⟨hm, rfl⟩]
    refine ⟨?_, fun hin => absurd hin hm, fun _ => hexec⟩
    rw [hexec]
    exact ⟨fun hne => absurd rfl hne, fun hin => absurd hin hm⟩

/-- CLAIM C6 (witness): the /key token is exempt and dispatches to the key
handler without a credential. -/
theorem c6_credential_gate_witness :
    ("/key" ∈ noClientCommands) ∧
    execute_command false "/key" = DispatchResult.handler "key" :=
  ⟨by decide, (((c6_credential_gate "/key").2.1 (by decide)).1).trans rfl⟩

end SelfLayer
